import Mathlib

/-!
Verification of the EchoVerse tone-conditioned text transformation and
narration pipeline (src/app.py), shallowly embedded in Lean 4.

Python strings are modelled as `List Char` for document text, and as Lean
`String` for small enumerated keys (tone names, voice names, credential
fields).  The Streamlit diagnostic surface (st.error / st.info) is modelled
as an explicit list of emitted `Diag` messages.  The external gTTS synthesis
engine is an opaque parameter of type `List Char → List Char → Except String α`
(text, language code ↦ audio value or error message), matching the spec's
synthesis-engine boundary.
-/

namespace EchoVerse

/-- A user-visible diagnostic message, modelling `st.error` / `st.info`. -/
inductive Diag where
  | error (msg : String)
  | info (msg : String)
deriving DecidableEq

/-- The credential triple held by `EchoVerseConfig.__init__` (src/app.py
lines 18-23).  In Python each field defaults to the empty string. -/
structure EchoVerseConfig where
  WATSON_API_KEY : String
  WATSON_URL : String
  WATSONX_PROJECT_ID : String

/-- The list `missing` built inside `validate_credentials` (lines 27-33):
the names of the credential fields that are falsy (empty). -/
def missingCredentials (c : EchoVerseConfig) : List String :=
  (if c.WATSON_API_KEY = "" then ["WATSON_API_KEY"] else []) ++
  (if c.WATSON_URL = "" then ["WATSON_URL"] else []) ++
  (if c.WATSONX_PROJECT_ID = "" then ["WATSONX_PROJECT_ID"] else [])

/-- `EchoVerseConfig.validate_credentials` (lines 25-39): returns False and
emits an error plus an info diagnostic when any credential is missing,
otherwise returns True with no diagnostics. -/
def validate_credentials (c : EchoVerseConfig) : Bool × List Diag :=
  if missingCredentials c = [] then (true, [])
  else (false,
    [Diag.error ("Missing credentials: " ++
        String.intercalate ", " (missingCredentials c)),
     Diag.info "Please set your IBM Watson credentials in the configuration section"])

/-- The fixed Neutral template lead of `_simulate_rewrite` (line 87). -/
def neutralLead : List Char := ("In a clear and professional manner: ").toList

/-- The fixed Suspenseful template lead (line 89). -/
def suspensefulLead : List Char := ("With building tension and intrigue: ").toList

/-- The fixed Suspenseful template tail (line 89). -/
def suspensefulTail : List Char := ("... What happens next will surprise you.").toList

/-- The fixed Inspiring template lead (line 91). -/
def inspiringLead : List Char := ("With great determination and hope: ").toList

/-- The fixed Inspiring template tail (line 91). -/
def inspiringTail : List Char :=
  (" This is just the beginning of an incredible journey.").toList

/-- `TextRewriter._simulate_rewrite` (lines 84-92): a fixed tone-keyed
template substitution; an unrecognised tone falls through to `return text`. -/
def simulate_rewrite (text : List Char) (tone : String) : List Char :=
  if tone = "Neutral" then neutralLead ++ text
  else if tone = "Suspenseful" then suspensefulLead ++ text ++ suspensefulTail
  else if tone = "Inspiring" then inspiringLead ++ text ++ inspiringTail
  else text

/-- `TextRewriter.rewrite_text` (lines 71-82): if credential validation fails
the original text is returned together with the validation diagnostics;
otherwise the simulated rewrite runs.  The `try` body `_simulate_rewrite` is a
total pure function, so the `except` branch (lines 80-82) is unreachable and
the function always returns a string. -/
def rewrite_text (c : EchoVerseConfig) (text : List Char) (tone : String) :
    List Char × List Diag :=
  if (validate_credentials c).1 then
    (simulate_rewrite text tone, (validate_credentials c).2)
  else (text, (validate_credentials c).2)

/-- The `AudioGenerator.voices` table (lines 97-101) as a partial lookup. -/
def voices (voice : String) : Option String :=
  if voice = "Lisa" then some "en-us"
  else if voice = "Michael" then some "en-uk"
  else if voice = "Allison" then some "en-au"
  else none

/-- `self.voices.get(voice, "en-us")` (line 107): lookup with default. -/
def voicesGet (voice : String) : String := (voices voice).getD "en-us"

/-- `lang.split('-')[0]` (line 110): the segment before the first dash. -/
def langRoot : List Char → List Char
  | [] => []
  | c :: cs => if c = '-' then [] else c :: langRoot cs

/-- `AudioGenerator.generate_audio` (lines 103-119): resolve the voice to a
language code, strip it to its first segment, call the external engine; on an
engine error, catch it, emit a diagnostic and return None. -/
def generate_audio {α : Type} (engine : List Char → List Char → Except String α)
    (text : List Char) (voice : String) : Option α × List Diag :=
  match engine text (langRoot (voicesGet voice).toList) with
  | Except.ok a => (some a, [])
  | Except.error e => (none, [Diag.error ("Error generating audio: " ++ e)])

/-- The Python whitespace characters recognised by `str.strip` / `str.split`
on ASCII text. -/
def isPySpace (c : Char) : Bool :=
  c == ' ' || c == '\t' || c == '\n' || c == '\r' || c == '\x0b' || c == '\x0c'

/-- Python `str.strip()`: drop whitespace from both ends. -/
def strip (text : List Char) : List Char :=
  ((text.dropWhile isPySpace).reverse.dropWhile isPySpace).reverse

/-- Helper for `pySplit`: accumulates the current word reversed. -/
def pySplitAux : List Char → List Char → List (List Char)
  | [], acc => if acc = [] then [] else [acc.reverse]
  | c :: cs, acc =>
    if isPySpace c then
      if acc = [] then pySplitAux cs [] else acc.reverse :: pySplitAux cs []
    else pySplitAux cs (c :: acc)

/-- Python `str.split()` with no argument (line 275): split on runs of
whitespace, discarding empty tokens. -/
def pySplit (text : List Char) : List (List Char) := pySplitAux text []

/-- `EchoVerseApp.render_processing_section` (lines 222-238), the pipeline
orchestrator `process`: blank input short-circuits with an info diagnostic;
otherwise, when the generate button was pressed, the rewriter runs and its
output is handed to the audio generator; the pair is returned. -/
def render_processing_section {α : Type}
    (c : EchoVerseConfig) (engine : List Char → List Char → Except String α)
    (buttonPressed : Bool) (text_content : List Char) (tone voice : String) :
    Option (List Char) × Option α × List Diag :=
  if strip text_content = [] then
    (none, none, [Diag.info "Please enter some text to continue."])
  else if buttonPressed then
    (some (rewrite_text c text_content tone).1,
     (generate_audio engine (rewrite_text c text_content tone).1 voice).1,
     (rewrite_text c text_content tone).2 ++
       (generate_audio engine (rewrite_text c text_content tone).1 voice).2)
  else (none, none, [])

/-- The audio artifact as exposed for download (spec data model; bytes plus
metadata). -/
structure AudioArtifact (α : Type) where
  bytes : α
  mimeType : String
  suggestedFilename : String

/-- `AudioGenerator.create_download_button` (lines 127-138): when an audio
value is present, expose it for download with MIME type audio/mp3. -/
def create_download_button {α : Type} (audio_file : Option α)
    (filename : String) : Option (AudioArtifact α) :=
  audio_file.map (fun a => AudioArtifact.mk a "audio/mp3" filename)

/-- The statistics banner of `EchoVerseApp.render_audio_section`
(lines 273-276): shown only when an audio file exists; character count, word
count (whitespace split) and `len // 200` estimated minutes. -/
def render_audio_section {α : Type} (audio_file : Option α)
    (rewritten_text : List Char) : Option (Nat × Nat × Nat) :=
  match audio_file with
  | none => none
  | some _ => some (rewritten_text.length, (pySplit rewritten_text).length,
                    rewritten_text.length / 200)

/-- `text` begins with `lead` (used to state the Neutral-template property). -/
def beginsWith (text lead : List Char) : Prop := text.take lead.length = lead

/-- A concrete 1000-character, 150-word document used to witness the
statistics computation: 149 five-letter words each followed by a space, then
one 106-letter word. -/
def statsDemoText : List Char :=
  (List.replicate 149 ['a', 'a', 'a', 'a', 'a', ' ']).flatten ++
    List.replicate 106 'a'

/-! ## Theorems -/

/-- If every character of `text` is whitespace, `strip text` is empty. -/
theorem strip_eq_nil_of_all_space (text : List Char)
    (h : ∀ ch ∈ text, isPySpace ch = true) : strip text = [] := by
  unfold strip
  have h1 : text.dropWhile isPySpace = [] := List.dropWhile_eq_nil_iff.mpr h
  simp [h1]

/-- When credential validation succeeds its diagnostic list is empty. -/
theorem validate_credentials_snd_eq_nil (c : EchoVerseConfig)
    (hv : (validate_credentials c).1 = true) :
    (validate_credentials c).2 = [] := by
  by_cases hm : missingCredentials c = [] <;> simp [validate_credentials, hm] at hv ⊢

/-- When credential validation fails its diagnostic list is non-empty. -/
theorem validate_credentials_snd_ne_nil (c : EchoVerseConfig)
    (hv : (validate_credentials c).1 = false) :
    (validate_credentials c).2 ≠ [] := by
  by_cases hm : missingCredentials c = [] <;>
    simp [validate_credentials, hm] at hv ⊢

/-- C1: for every credential state, non-empty input text and tone among
Neutral, Suspenseful and Inspiring, `rewrite_text` returns non-empty text of
length at least the input length, and it is deterministic: equal text, tone
and credential state give identical output. -/
theorem rewrite_text_nonempty_expansive_deterministic
    (c : EchoVerseConfig) (text : List Char) (tone : String)
    (hne : text ≠ [])
    (ht : tone = "Neutral" ∨ tone = "Suspenseful" ∨ tone = "Inspiring") :
    (rewrite_text c text tone).1 ≠ [] ∧
    text.length ≤ (rewrite_text c text tone).1.length ∧
    ∀ c2 t2 tone2, c2 = c → t2 = text → tone2 = tone →
      rewrite_text c2 t2 tone2 = rewrite_text c text tone := by
  refine ⟨?_, ?_, ?_⟩
  · unfold rewrite_text
    cases hv : (validate_credentials c).1 <;> simp [hne]
    rcases ht with h | h | h <;>
      simp [simulate_rewrite, h, List.append_eq_nil, hne, neutralLead,
        suspensefulLead, inspiringLead]
  · unfold rewrite_text
    cases hv : (validate_credentials c).1 <;> simp
    rcases ht with h | h | h <;>
      simp [simulate_rewrite, h, List.length_append] <;> omega
  · intro c2 t2 tone2 h1 h2 h3
    rw [h1, h2, h3]

/-- C3: for blank input (empty or whitespace-only), the orchestrator
short-circuits: it returns (none, none) plus the informational diagnostic,
for every credential state, engine, button state, tone and voice — in
particular neither the rewriter nor the narrator can influence the result. -/
theorem process_blank_short_circuit {α : Type}
    (c : EchoVerseConfig) (engine : List Char → List Char → Except String α)
    (buttonPressed : Bool) (text : List Char) (tone voice : String)
    (hblank : ∀ ch ∈ text, isPySpace ch = true) :
    render_processing_section c engine buttonPressed text tone voice =
      (none, none, [Diag.info "Please enter some text to continue."]) := by
  unfold render_processing_section
  simp [strip_eq_nil_of_all_space text hblank]

/-- C2: for input that is not blank, whenever the synthesis engine fails on
the rewritten text, the orchestrator still returns the rewritten text
together with a null audio value plus the caught-error diagnostic; no
exception escapes (the result is exactly this tuple). -/
theorem process_engine_failure_partial_success {α : Type}
    (c : EchoVerseConfig) (engine : List Char → List Char → Except String α)
    (text : List Char) (tone voice : String) (msg : String)
    (hne : strip text ≠ [])
    (hfail : engine (rewrite_text c text tone).1
        (langRoot (voicesGet voice).toList) = Except.error msg) :
    render_processing_section c engine true text tone voice =
      (some (rewrite_text c text tone).1, none,
       (rewrite_text c text tone).2 ++
         [Diag.error ("Error generating audio: " ++ msg)]) := by
  unfold render_processing_section generate_audio
  have hfail2 : engine (rewrite_text c text tone).1
      (langRoot (voicesGet voice).data) = Except.error msg := hfail
  simp [hne, hfail2]

/-- C1 witness: the property instantiated at valid credentials, the text
"hi" and the Neutral tone. -/
theorem rewrite_text_nonempty_expansive_deterministic_witness :
    (['h', 'i'] : List Char) ≠ [] ∧
    (rewrite_text ⟨"k", "u", "p"⟩ ['h', 'i'] "Neutral").1 ≠ [] ∧
    (['h', 'i'] : List Char).length ≤
      (rewrite_text ⟨"k", "u", "p"⟩ ['h', 'i'] "Neutral").1.length :=
  ⟨by decide,
   (rewrite_text_nonempty_expansive_deterministic ⟨"k", "u", "p"⟩ ['h', 'i']
      "Neutral" (by decide) (Or.inl rfl)).1,
   (rewrite_text_nonempty_expansive_deterministic ⟨"k", "u", "p"⟩ ['h', 'i']
      "Neutral" (by decide) (Or.inl rfl)).2.1⟩

/-- C3 witness: a single-space input short-circuits for an arbitrary
engine, with the button pressed and missing credentials. -/
theorem process_blank_short_circuit_witness :
    (∀ ch ∈ ([' '] : List Char), isPySpace ch = true) ∧
    render_processing_section ⟨"", "", ""⟩
        (fun _ _ => (Except.ok 0 : Except String Nat)) true [' '] "Neutral" "Lisa" =
      (none, none, [Diag.info "Please enter some text to continue."]) :=
  ⟨by decide,
   process_blank_short_circuit ⟨"", "", ""⟩ (fun _ _ => Except.ok 0) true
     [' '] "Neutral" "Lisa" (by decide)⟩

/-- C2 witness: an engine that always fails still lets the orchestrator
return the rewritten text with a null audio value. -/
theorem process_engine_failure_partial_success_witness :
    strip ['h', 'i'] ≠ [] ∧
    render_processing_section ⟨"", "", ""⟩
        (fun _ _ => (Except.error "boom" : Except String Nat)) true ['h', 'i']
        "Neutral" "Lisa" =
      (some (rewrite_text ⟨"", "", ""⟩ ['h', 'i'] "Neutral").1, none,
       (rewrite_text ⟨"", "", ""⟩ ['h', 'i'] "Neutral").2 ++
         [Diag.error ("Error generating audio: " ++ "boom")]) :=
  ⟨by decide,
   process_engine_failure_partial_success ⟨"", "", ""⟩ (fun _ _ => Except.error "boom")
     ['h', 'i'] "Neutral" "Lisa" "boom" (by decide) rfl⟩

/-- C4: for non-blank input the orchestrator hands exactly the rewriter's
output to the audio-generation call (observed here through an engine that
returns its text argument), and whenever credentials are valid and the tone
is one of the three enumerated values, that rewritten text differs from the
original input — so narration narrates the rewritten text, never the
original, for all tones including Neutral. -/
theorem process_narrates_rewritten_text
    (c : EchoVerseConfig) (text : List Char) (tone voice : String)
    (hne : strip text ≠ []) :
    (render_processing_section c
        (fun t _ => (Except.ok t : Except String (List Char))) true text tone
        voice).2.1 = some (rewrite_text c text tone).1 ∧
    ((validate_credentials c).1 = true →
      (tone = "Neutral" ∨ tone = "Suspenseful" ∨ tone = "Inspiring") →
      (rewrite_text c text tone).1 ≠ text) := by
  constructor
  · unfold render_processing_section generate_audio
    simp [hne]
  · intro hv ht
    have hn : neutralLead.length = 36 := by decide
    have hs : suspensefulLead.length = 36 := by decide
    have hi : inspiringLead.length = 35 := by decide
    unfold rewrite_text
    rcases ht with h | h | h <;>
      simp [hv, simulate_rewrite, h] <;>
      intro heq <;>
      have hlen := congrArg List.length heq <;>
      simp [List.length_append, hn, hs, hi] at hlen
    · omega
    · omega

/-- C4 witness: at valid credentials, the text "hi", the Neutral tone and the
voice Lisa, the narrated text is the rewriter's output and differs from the
original input. -/
theorem process_narrates_rewritten_text_witness :
    strip ['h', 'i'] ≠ [] ∧
    (render_processing_section ⟨"k", "u", "p"⟩
        (fun t _ => (Except.ok t : Except String (List Char))) true ['h', 'i']
        "Neutral" "Lisa").2.1 =
      some (rewrite_text ⟨"k", "u", "p"⟩ ['h', 'i'] "Neutral").1 ∧
    (rewrite_text ⟨"k", "u", "p"⟩ ['h', 'i'] "Neutral").1 ≠ ['h', 'i'] :=
  ⟨by decide,
   (process_narrates_rewritten_text ⟨"k", "u", "p"⟩ ['h', 'i'] "Neutral" "Lisa"
      (by decide)).1,
   (process_narrates_rewritten_text ⟨"k", "u", "p"⟩ ['h', 'i'] "Neutral" "Lisa"
      (by decide)).2 (by decide) (Or.inl rfl)⟩

/-- C5 counterexample: with every credential missing, `rewrite_text` returns
the original text unchanged; it does not fall back to the tone-specific
simulated transformation, which would yield a different string. -/
theorem rewrite_text_missing_creds_counterexample :
    (rewrite_text ⟨"", "", ""⟩ ['h', 'i'] "Neutral").1 = ['h', 'i'] ∧
    simulate_rewrite ['h', 'i'] "Neutral" ≠ ['h', 'i'] := by
  constructor
  · decide
  · decide

/-- C5 amended: when credential validation fails, `rewrite_text` skips both
the real backend call and the simulated transformation: it returns the
original text unchanged together with a non-empty diagnostic list, so the
pipeline is not blocked but the text is left untransformed. -/
theorem rewrite_text_missing_creds_returns_original
    (c : EchoVerseConfig) (text : List Char) (tone : String)
    (hv : (validate_credentials c).1 = false) :
    rewrite_text c text tone = (text, (validate_credentials c).2) ∧
    (validate_credentials c).2 ≠ [] := by
  refine ⟨?_, validate_credentials_snd_ne_nil c hv⟩
  unfold rewrite_text
  simp [hv]

/-- C5 amended witness: the empty-credential configuration at the text "hi"
and the Neutral tone. -/
theorem rewrite_text_missing_creds_returns_original_witness :
    (validate_credentials ⟨"", "", ""⟩).1 = false ∧
    rewrite_text ⟨"", "", ""⟩ ['h', 'i'] "Neutral" =
      (['h', 'i'], (validate_credentials ⟨"", "", ""⟩).2) ∧
    (validate_credentials ⟨"", "", ""⟩).2 ≠ [] :=
  ⟨by decide,
   (rewrite_text_missing_creds_returns_original ⟨"", "", ""⟩ ['h', 'i']
      "Neutral" (by decide)).1,
   (rewrite_text_missing_creds_returns_original ⟨"", "", ""⟩ ['h', 'i']
      "Neutral" (by decide)).2⟩

/-- C6 counterexample: with valid credentials and the out-of-set tone
"Bold", the rewrite does not fail with any error: it returns the input text
unchanged with an empty diagnostic list. -/
theorem rewrite_unknown_tone_counterexample :
    rewrite_text ⟨"k", "u", "p"⟩ ['h', 'i'] "Bold" = (['h', 'i'], []) := by
  decide

/-- C6 amended: given valid credentials, a tone outside the enumerated set
does not raise an InvalidTone error — the rewrite returns the input text
unchanged with no diagnostic — and tones inside the set likewise produce no
error diagnostic. -/
theorem rewrite_tone_handling (c : EchoVerseConfig) (text : List Char)
    (tone : String) (hv : (validate_credentials c).1 = true) :
    ((tone ≠ "Neutral" ∧ tone ≠ "Suspenseful" ∧ tone ≠ "Inspiring") →
      rewrite_text c text tone = (text, [])) ∧
    (rewrite_text c text tone).2 = [] := by
  have h2 := validate_credentials_snd_eq_nil c hv
  constructor
  · intro h
    unfold rewrite_text
    simp [hv, h2, simulate_rewrite, h.1, h.2.1, h.2.2]
  · unfold rewrite_text
    simp [hv, h2]

/-- C6 amended witness: valid credentials, the text "hi" and the out-of-set
tone "Bold". -/
theorem rewrite_tone_handling_witness :
    (validate_credentials ⟨"k", "u", "p"⟩).1 = true ∧
    rewrite_text ⟨"k", "u", "p"⟩ ['h', 'i'] "Bold" = (['h', 'i'], []) ∧
    (rewrite_text ⟨"k", "u", "p"⟩ ['h', 'i'] "Bold").2 = [] :=
  ⟨by decide,
   (rewrite_tone_handling ⟨"k", "u", "p"⟩ ['h', 'i'] "Bold" (by decide)).1
     (by refine ⟨?_, ?_, ?_⟩ <;> decide),
   (rewrite_tone_handling ⟨"k", "u", "p"⟩ ['h', 'i'] "Bold" (by decide)).2⟩

/-- On the success path (non-blank text, engine succeeds on the rewritten
text), the orchestrator returns the rewritten text, the audio value, and the
rewriter's diagnostics. -/
theorem process_success {α : Type}
    (c : EchoVerseConfig) (engine : List Char → List Char → Except String α)
    (text : List Char) (tone voice : String) (a : α)
    (hne : strip text ≠ [])
    (hok : engine (rewrite_text c text tone).1
        (langRoot (voicesGet voice).toList) = Except.ok a) :
    render_processing_section c engine true text tone voice =
      (some (rewrite_text c text tone).1, some a,
       (rewrite_text c text tone).2) := by
  unfold render_processing_section generate_audio
  rw [if_neg hne, if_pos rfl, hok]
  simp

/-- C7 counterexample: at the code's initial credential state (all three
fields empty, as assigned in the constructor), process("Hello world",
"Neutral", "Lisa") returns "Hello world" unchanged even when the synthesis
engine succeeds, and that text does not begin with the Neutral template
lead. -/
theorem process_hello_world_counterexample :
    (render_processing_section ⟨"", "", ""⟩
        (fun t _ => (Except.ok t : Except String (List Char))) true
        ("Hello world".toList) "Neutral" "Lisa").1 =
      some ("Hello world".toList) ∧
    ¬ beginsWith ("Hello world".toList) neutralLead := by
  constructor
  · decide
  · unfold beginsWith
    decide

/-- C7 amended: assuming all credentials are present and the synthesis
engine succeeds, process("Hello world", "Neutral", "Lisa") returns rewritten
text that begins with the fixed Neutral lead and contains "Hello world"
verbatim, together with a non-null audio value whose download artifact
carries MIME type audio/mp3. -/
theorem process_hello_world_valid_creds {α : Type}
    (c : EchoVerseConfig) (engine : List Char → List Char → Except String α)
    (a : α) (hv : (validate_credentials c).1 = true)
    (hok : engine (rewrite_text c ("Hello world".toList) "Neutral").1
        (langRoot (voicesGet "Lisa").toList) = Except.ok a) :
    render_processing_section c engine true ("Hello world".toList) "Neutral"
        "Lisa" =
      (some (neutralLead ++ "Hello world".toList), some a, []) ∧
    beginsWith (neutralLead ++ "Hello world".toList) neutralLead ∧
    (∃ s t, s ++ "Hello world".toList ++ t =
      neutralLead ++ "Hello world".toList) ∧
    create_download_button (some a) "audiobook.mp3" =
      some (AudioArtifact.mk a "audio/mp3" "audiobook.mp3") := by
  have h2 := validate_credentials_snd_eq_nil c hv
  have hrw : rewrite_text c ("Hello world".toList) "Neutral" =
      (neutralLead ++ "Hello world".toList, []) := by
    unfold rewrite_text
    simp [hv, h2, simulate_rewrite]
  refine ⟨?_, ?_, ⟨neutralLead, [], by simp⟩, rfl⟩
  · have hne : strip ("Hello world".toList) ≠ [] := by decide
    rw [process_success c engine ("Hello world".toList) "Neutral" "Lisa" a hne
      hok, hrw]
  · unfold beginsWith
    simp

/-- C7 amended witness: valid credentials with an engine that echoes its
text argument. -/
theorem process_hello_world_valid_creds_witness :
    (validate_credentials ⟨"k", "u", "p"⟩).1 = true ∧
    render_processing_section ⟨"k", "u", "p"⟩
        (fun t _ => (Except.ok t : Except String (List Char))) true
        ("Hello world".toList) "Neutral" "Lisa" =
      (some (neutralLead ++ "Hello world".toList),
       some (neutralLead ++ "Hello world".toList), []) ∧
    beginsWith (neutralLead ++ "Hello world".toList) neutralLead ∧
    create_download_button (some (neutralLead ++ "Hello world".toList))
        "audiobook.mp3" =
      some (AudioArtifact.mk (neutralLead ++ "Hello world".toList)
        "audio/mp3" "audiobook.mp3") :=
  ⟨by decide,
   (process_hello_world_valid_creds ⟨"k", "u", "p"⟩
      (fun t _ => Except.ok t) (neutralLead ++ "Hello world".toList)
      (by decide) (by rw [show (rewrite_text ⟨"k", "u", "p"⟩
        ("Hello world".toList) "Neutral").1 =
          neutralLead ++ "Hello world".toList from by decide])).1,
   (process_hello_world_valid_creds ⟨"k", "u", "p"⟩
      (fun t _ => Except.ok t) (neutralLead ++ "Hello world".toList)
      (by decide) (by rw [show (rewrite_text ⟨"k", "u", "p"⟩
        ("Hello world".toList) "Neutral").1 =
          neutralLead ++ "Hello world".toList from by decide])).2.1,
   (process_hello_world_valid_creds ⟨"k", "u", "p"⟩
      (fun t _ => Except.ok t) (neutralLead ++ "Hello world".toList)
      (by decide) (by rw [show (rewrite_text ⟨"k", "u", "p"⟩
        ("Hello world".toList) "Neutral").1 =
          neutralLead ++ "Hello world".toList from by decide])).2.2.2⟩

/-- C8: whenever an audio value is present, the displayed statistics are
exactly the character count, the whitespace-split word count and the
character count divided by 200 (floor division, as the code computes with
Python integer division); in particular for source text of 1000 characters
and 150 words they equal (1000, 150, 5). -/
theorem render_audio_section_stats {α : Type} (a : α)
    (rewritten_text : List Char) :
    render_audio_section (some a) rewritten_text =
      some (rewritten_text.length, (pySplit rewritten_text).length,
        rewritten_text.length / 200) ∧
    (rewritten_text.length = 1000 → (pySplit rewritten_text).length = 150 →
      render_audio_section (some a) rewritten_text = some (1000, 150, 5)) := by
  constructor
  · rfl
  · intro h1 h2
    unfold render_audio_section
    rw [h1, h2]

set_option maxRecDepth 100000 in
/-- C8 witness: the concrete 1000-character, 150-word document. -/
theorem render_audio_section_stats_witness :
    statsDemoText.length = 1000 ∧ (pySplit statsDemoText).length = 150 ∧
    render_audio_section (some 0) statsDemoText =
      some (1000, 150, 5) :=
  ⟨by decide, by decide,
   (render_audio_section_stats 0 statsDemoText).2 (by decide) (by decide)⟩

/-- C9: for every voice outside the enumerated set, the audio-generation
lookup does not fail: it falls back to the default language code "en-us"
(so "en" is passed to the engine), and synthesis proceeds — if the engine
succeeds on the default language, generate_audio returns the audio value
with no diagnostic. -/
theorem generate_audio_unknown_voice_default {α : Type}
    (engine : List Char → List Char → Except String α) (text : List Char)
    (voice : String) (a : α)
    (hvo : voice ≠ "Lisa" ∧ voice ≠ "Michael" ∧ voice ≠ "Allison")
    (hok : engine text ("en".toList) = Except.ok a) :
    voicesGet voice = "en-us" ∧
    generate_audio engine text voice = (some a, []) := by
  have h1 : voices voice = none := by
    unfold voices
    simp [hvo.1, hvo.2.1, hvo.2.2]
  have h2 : voicesGet voice = "en-us" := by
    unfold voicesGet
    rw [h1]
    rfl
  have h3 : langRoot ("en-us".toList) = "en".toList := by decide
  refine ⟨h2, ?_⟩
  unfold generate_audio
  rw [h2, h3, hok]

/-- C9 witness: the unrecognised voice "Unknown" with an engine succeeding
on language "en". -/
theorem generate_audio_unknown_voice_default_witness :
    ("Unknown" ≠ "Lisa" ∧ "Unknown" ≠ "Michael" ∧ "Unknown" ≠ "Allison") ∧
    voicesGet "Unknown" = "en-us" ∧
    generate_audio (fun _ _ => (Except.ok 7 : Except String Nat)) ['h', 'i']
        "Unknown" = (some 7, []) :=
  ⟨by refine ⟨?_, ?_, ?_⟩ <;> decide,
   (generate_audio_unknown_voice_default (fun _ _ => Except.ok 7) ['h', 'i']
      "Unknown" 7 (by refine ⟨?_, ?_, ?_⟩ <;> decide) rfl).1,
   (generate_audio_unknown_voice_default (fun _ _ => Except.ok 7) ['h', 'i']
      "Unknown" 7 (by refine ⟨?_, ?_, ?_⟩ <;> decide) rfl).2⟩

/-- C10: `rewrite_text` is a total function — the caller always receives a
string — and the only internal failure path, failed credential validation,
is caught: a non-empty diagnostic list is emitted and the original input
text is returned unchanged; otherwise it returns the simulated rewrite with
no diagnostic.  (The `try` body `_simulate_rewrite` is a pure total
function, so the `except` handler is unreachable.) -/
theorem rewrite_text_total_never_raises (c : EchoVerseConfig)
    (text : List Char) (tone : String) :
    (rewrite_text c text tone = (simulate_rewrite text tone, []) ∧
      (validate_credentials c).1 = true) ∨
    (rewrite_text c text tone = (text, (validate_credentials c).2) ∧
      (validate_credentials c).2 ≠ []) := by
  cases hv : (validate_credentials c).1
  · right
    refine ⟨?_, validate_credentials_snd_ne_nil c hv⟩
    unfold rewrite_text
    simp [hv]
  · left
    refine ⟨?_, rfl⟩
    unfold rewrite_text
    simp [hv, validate_credentials_snd_eq_nil c hv]

end EchoVerse
